import Mathlib

/-!
Verification development for the travel-assistant backend (src/main.py).

The Python source is shallowly embedded below: pure computations become
Lean functions, the HTTP handlers become functions from the request (and
from oracles standing for the external providers: the Stripe SDK and the
agent runner) to an `Except HttpError` result, and the lock-guarded
startup of the shared maps server becomes a small-step transition system.
Exact rationals stand for Python numbers; Python exceptions become
explicit error values.
-/

set_option maxHeartbeats 1000000

/-- FastAPI HTTPException carrying a status code and a detail string. -/
structure HttpError where
  status : Nat
  detail : String
deriving DecidableEq

/-- HTTP status of a handler result: a normal return is served as 200,
a raised HTTPException carries its own status. -/
def httpStatus {α : Type} : Except HttpError α → Nat
  | .ok _ => 200
  | .error e => e.status

/-- Pydantic model `ConversationMessage` (src/main.py lines 77-79). -/
structure ConversationMessage where
  role : String
  content : String
deriving DecidableEq

/-- Pydantic model `ChatQuery` (src/main.py lines 81-92). -/
structure ChatQuery where
  query : String
  history : List ConversationMessage
  conversation_id : Option String
deriving DecidableEq

/-- Pydantic model `PaymentRequest` (src/main.py lines 94-98). The amount
field is a Python float: the binary64 value decoded from the JSON body,
embedded as the exact rational that the float denotes (every finite
binary64 value is a rational; see `round64` for the decoding and for
float arithmetic). -/
structure PaymentRequest where
  amount : ℚ
  currency : String
  description : String
  payment_method : String

/-- Pydantic model `Response` (src/main.py lines 100-103). -/
structure Response where
  response : String
  trace_id : String
  conversation_id : Option String
deriving DecidableEq

/-- Pydantic model `PaymentResponse` (src/main.py lines 105-108); the
optional fields default to `None` when omitted. -/
structure PaymentResponse where
  success : Bool
  payment_id : Option String
  error : Option String
deriving DecidableEq

/-- Python `int()` truncation toward zero, on an exact rational. -/
def pyInt (q : ℚ) : ℤ := q.num.tdiv q.den

/-- Round a rational to the nearest integer, ties to even — the rounding
used by IEEE-754 binary64 arithmetic on the scaled significand. -/
def rne (q : ℚ) : ℤ :=
  if q - ⌊q⌋ < 1 / 2 then ⌊q⌋
  else if 1 / 2 < q - ⌊q⌋ then ⌊q⌋ + 1
  else if ⌊q⌋ % 2 = 0 then ⌊q⌋ else ⌊q⌋ + 1

/-- Exponent of the leading binary digit of a positive rational: the
integer `e` with `2 ^ e ≤ q < 2 ^ (e + 1)`. -/
def floorLog2 (q : ℚ) : ℤ :=
  if 1 ≤ q then (Nat.log2 (⌊q⌋).toNat : ℤ)
  else if (2 : ℚ) ^ (-(Nat.log2 (⌊q⁻¹⌋).toNat : ℤ)) ≤ q then
    -(Nat.log2 (⌊q⁻¹⌋).toNat : ℤ)
  else -(Nat.log2 (⌊q⁻¹⌋).toNat : ℤ) - 1

/-- IEEE-754 binary64 rounding (round to nearest, ties to even) of a
positive rational in the normal finite range: the significand is kept to
53 bits, i.e. the value is rounded to the nearest multiple of
`2 ^ (e - 52)` where `e` is its leading-digit exponent. (Overflow to
infinity and the subnormal range are outside the currency amounts this
program handles and are not modelled.) -/
def round64Pos (q : ℚ) : ℚ :=
  (rne (q * 2 ^ (52 - floorLog2 q)) : ℚ) * 2 ^ (floorLog2 q - 52)

/-- IEEE-754 binary64 rounding of a rational, negatives by symmetry. A
JSON number or Python float literal denotes `round64` of its decimal
value, and every Python float arithmetic result is `round64` of the
exact result of the operation. -/
def round64 (q : ℚ) : ℚ :=
  if q < 0 then -round64Pos (-q) else if q = 0 then 0 else round64Pos q

/-- Python float multiplication: the exact product of the two binary64
operands, rounded back to binary64. -/
def fmul64 (x y : ℚ) : ℚ := round64 (x * y)

/-- Keyword arguments of the `stripe.PaymentIntent.create` call
(src/main.py lines 114-121). -/
structure StripeParams where
  amount : ℤ
  currency : String
  payment_method : String
  description : String
  confirm : Bool
  return_url : String
deriving DecidableEq

/-- The argument record built by `create_payment_intent` for the Stripe
call: `amount=int(request.amount * 100)` — the binary64 float product of
the request amount and 100, truncated toward zero by `int()` — and the
remaining fields copied from the request (src/main.py lines 114-121). -/
def stripeParams (req : PaymentRequest) : StripeParams where
  amount := pyInt (fmul64 req.amount 100)
  currency := req.currency
  payment_method := req.payment_method
  description := req.description
  confirm := true
  return_url := "https://your-domain.com/payment-success"

/-- Outcome of the external `stripe.PaymentIntent.create` call: a created
intent with its id, a raised `stripe.error.StripeError`, or any other
raised exception. -/
inductive StripeOutcome where
  | ok (intentId : String)
  | stripeError (msg : String)
  | exn (msg : String)
deriving DecidableEq

/-- The `POST /create-payment-intent` handler (src/main.py lines 110-138):
call Stripe with the converted amount; on success return
`success=True, payment_id=intent.id`; catch `StripeError` and any other
exception alike, returning `success=False, error=str(e)` as a normal
response. The handler never raises an HTTPException. -/
def create_payment_intent (stripeCreate : StripeParams → StripeOutcome)
    (req : PaymentRequest) : Except HttpError PaymentResponse :=
  match stripeCreate (stripeParams req) with
  | .ok intentId => .ok { success := true, payment_id := some intentId, error := none }
  | .stripeError e => .ok { success := false, payment_id := none, error := some e }
  | .exn e => .ok { success := false, payment_id := none, error := some e }

/-- One history line: the role, a colon and a space, the content, then a newline (src/main.py line 255). -/
def formatMsg (m : ConversationMessage) : String :=
  m.role ++ ": " ++ m.content ++ "\n"

/-- The characters of a formatted history line without its trailing
newline: `role`, colon, space, `content`. -/
def lineChars (m : ConversationMessage) : List Char :=
  m.role.data ++ ':' :: ' ' :: m.content.data

/-- The conversation-context construction of `process_query`
(src/main.py lines 250-255): start from the empty string; when the
history is non-empty, start from the header and append one formatted
line per message, in order. -/
def buildConversationContext (history : List ConversationMessage) : String :=
  if history.isEmpty then ""
  else history.foldl (fun acc m => acc ++ formatMsg m) "\nPrevious conversation:\n"

/-- Splitting a character list on newline characters; mirrors reading a
string as a sequence of lines. -/
def splitOnNl : List Char → List (List Char)
  | [] => [[]]
  | c :: rest =>
    if c = '\n' then [] :: splitOnNl rest
    else
      match splitOnNl rest with
      | [] => [[c]]
      | l :: ls => (c :: l) :: ls

/-- Result of one `Runner.run` call: the final output text and the value
of `result.to_input_list()` handed to the next agent. -/
structure RunnerResult where
  finalOutput : String
  inputList : List String
deriving DecidableEq

/-- The `POST /query` handler (src/main.py lines 244-347), parameterised
by the two external runner calls (orchestrator on the raw query text,
synthesizer on the orchestrator result converted to an input list; both
agents are created with the conversation context) and by the generated
trace id. A raised error in either stage is caught by the final
`except` clause and re-raised as `HTTPException(500, str(e))`. -/
def process_query (runOrchestrator : String → String → Except String RunnerResult)
    (runSynthesizer : String → List String → Except String RunnerResult)
    (genTraceId : String) (q : ChatQuery) : Except HttpError Response :=
  let conversationContext := buildConversationContext q.history
  match runOrchestrator conversationContext q.query with
  | .error e => .error { status := 500, detail := e }
  | .ok orchestratorResult =>
    match runSynthesizer conversationContext orchestratorResult.inputList with
    | .error e => .error { status := 500, detail := e }
    | .ok synthesizerResult =>
      .ok { response := synthesizerResult.finalOutput
            trace_id := genTraceId
            conversation_id := q.conversation_id }

/-- A raw `POST /query` body as the framework parser sees it, before
validation against the declared `ChatQuery` model: the `query` field may
be absent, and each history entry carries possibly-absent `role` and
`content` fields. -/
structure RawChatBody where
  query : Option String
  history : List (Option String × Option String)
  conversation_id : Option String
deriving DecidableEq

/-- Modelled from the spec: the pydantic validation of the history
entries of a `POST /query` body against `ConversationMessage` (the
FastAPI/pydantic validation layer is framework code outside this
repository); `role` and `content` are required on each entry, and a
missing field rejects the request with HTTP 422 before the handler
runs. -/
def validateHistory :
    List (Option String × Option String) → Except HttpError (List ConversationMessage)
  | [] => .ok []
  | (some r, some c) :: rest =>
    match validateHistory rest with
    | .error err => .error err
    | .ok msgs => .ok ({ role := r, content := c } :: msgs)
  | (none, _) :: _ => .error { status := 422, detail := "field required: role" }
  | (_, none) :: _ => .error { status := 422, detail := "field required: content" }

/-- Modelled from the spec: the pydantic validation of a `POST /query`
body against the declared `ChatQuery` model (the FastAPI/pydantic
validation layer is framework code outside this repository); `query` is
required, and a malformed body is rejected with HTTP 422 Unprocessable
Entity — the framework's 400-equivalent — before the handler runs. -/
def validateChatQuery (b : RawChatBody) : Except HttpError ChatQuery :=
  match b.query with
  | none => .error { status := 422, detail := "field required: query" }
  | some qtext =>
    match validateHistory b.history with
    | .error err => .error err
    | .ok msgs =>
      .ok { query := qtext, history := msgs, conversation_id := b.conversation_id }

/-- The full `POST /query` route: framework body validation followed by
the handler; a validation failure is returned as its own HTTP error and
the handler never runs. -/
def query_endpoint (runOrchestrator : String → String → Except String RunnerResult)
    (runSynthesizer : String → List String → Except String RunnerResult)
    (genTraceId : String) (b : RawChatBody) : Except HttpError Response :=
  match validateChatQuery b with
  | .error err => .error err
  | .ok q => process_query runOrchestrator runSynthesizer genTraceId q

/-- Values produced by the module-level startup code: `stripe.api_key`
(line 23), the toolkit secret key (line 27), and the maps API key placed
in the subprocess environment (line 55). -/
structure AppConfig where
  stripeApiKey : Option String
  toolkitSecretKey : Option String
  mapsApiKeyEnv : Option String
deriving DecidableEq

/-- The configuration-loading part of startup (src/main.py lines 22-35
and 49-58): each key is read with `os.getenv`, which returns `None` when
the variable is absent, and the value is stored or passed on unchanged.
No check or raise guards a missing key, so the result is always `.ok`. -/
def startupInit (getenv : String → Option String) : Except String AppConfig :=
  .ok { stripeApiKey := getenv "STRIPE_SECRET_KEY"
        toolkitSecretKey := getenv "STRIPE_SECRET_KEY"
        mapsApiKeyEnv := getenv "GOOGLE_MAPS_API_KEY" }

/-- One priced item produced by the Commerce specialist: display name,
price in USD, payment link. -/
structure PricedItem where
  name : String
  price_usd : ℚ
  payment_link : String

/-- The structured `package_options` output of one Commerce invocation. -/
structure PackageOptions where
  destination : String
  flight : PricedItem
  hotel : PricedItem
  package : PricedItem
  discount_percent : ℚ

/-- Modelled from the spec: the Commerce specialist product-creation
sub-protocol. The repository contains only the prompt declaring this
specialist (`create_payments_agent`, src/main.py lines 171-203); the
behaviour itself is carried out by the hosted model, so it is modelled
here from the spec text: for a destination produce Flight, Hotel (3
nights at the nightly rate) and Package = Flight + Hotel + one activity,
the package priced at a 10-15 percent discount versus Flight + Hotel,
each item with its own payment link. The flight price, nightly rate,
discount percentage and links are the free choices left to the model. -/
def commerceInvoke (destination : String) (flightPrice nightlyRate discount : ℚ)
    (flightLink hotelLink packageLink : String) : PackageOptions where
  destination := destination
  flight :=
    { name := "Vuelo a " ++ destination
      price_usd := flightPrice
      payment_link := flightLink }
  hotel :=
    { name := "Hotel en " ++ destination ++ " (3 noches)"
      price_usd := 3 * nightlyRate
      payment_link := hotelLink }
  package :=
    { name := "Paquete completo a " ++ destination
      price_usd := (flightPrice + 3 * nightlyRate) * (100 - discount) / 100
      payment_link := packageLink }
  discount_percent := discount

/-- The priced items produced by one Commerce invocation, in order. -/
def commerceItems (p : PackageOptions) : List PricedItem :=
  [p.flight, p.hotel, p.package]

/-- Program counter of one startup trigger running the guarded block of
`lifespan` (src/main.py lines 46-59): before `async with _server_lock`;
holding the lock before the `is None` check; about to initialize; about
to release; finished. -/
inductive TaskPC where
  | start
  | entered
  | initing
  | releasing
  | done
deriving DecidableEq

/-- Shared state of the maps-server startup: the holder of
`_server_lock`, whether `_maps_server` has been assigned and connected,
the program counter of each of the `n` startup triggers, and a count of
how many initializations were performed. -/
structure MapsInitState (n : Nat) where
  lockHolder : Option (Fin n)
  serverInit : Bool
  pcs : Fin n → TaskPC
  initCount : Nat

/-- Initial state: lock free, `_maps_server = None`, all triggers at the
top of the guarded block. -/
def MapsInitState.start (n : Nat) : MapsInitState n where
  lockHolder := none
  serverInit := false
  pcs := fun _ => .start
  initCount := 0

/-- Interleaving semantics of the guarded block of `lifespan`: a trigger
acquires the free lock, checks `_maps_server is None` while holding it,
initializes only when the check saw `None`, and releases the lock. -/
inductive MapsInitStep (n : Nat) : MapsInitState n → MapsInitState n → Prop where
  | acquire (s : MapsInitState n) (i : Fin n) :
      s.pcs i = .start → s.lockHolder = none →
      MapsInitStep n s
        { s with lockHolder := some i, pcs := Function.update s.pcs i .entered }
  | checkNone (s : MapsInitState n) (i : Fin n) :
      s.pcs i = .entered → s.lockHolder = some i → s.serverInit = false →
      MapsInitStep n s { s with pcs := Function.update s.pcs i .initing }
  | checkSome (s : MapsInitState n) (i : Fin n) :
      s.pcs i = .entered → s.lockHolder = some i → s.serverInit = true →
      MapsInitStep n s { s with pcs := Function.update s.pcs i .releasing }
  | doInit (s : MapsInitState n) (i : Fin n) :
      s.pcs i = .initing → s.lockHolder = some i →
      MapsInitStep n s
        { s with serverInit := true, initCount := s.initCount + 1,
                 pcs := Function.update s.pcs i .releasing }
  | release (s : MapsInitState n) (i : Fin n) :
      s.pcs i = .releasing → s.lockHolder = some i →
      MapsInitStep n s
        { s with lockHolder := none, pcs := Function.update s.pcs i .done }

/-- States reachable from the initial startup state by interleaved
steps of the `n` startup triggers. -/
inductive MapsInitReachable (n : Nat) : MapsInitState n → Prop where
  | start : MapsInitReachable n (MapsInitState.start n)
  | step {s t : MapsInitState n} :
      MapsInitReachable n s → MapsInitStep n s t → MapsInitReachable n t

/-- A trigger is inside the lock-guarded critical section. -/
def inCritical (pc : TaskPC) : Prop :=
  pc = .entered ∨ pc = .initing ∨ pc = .releasing

/-- Inductive invariant of the startup transition system: critical
sections hold the lock; a trigger poised to initialize saw the handle
unset, and the handle stays unset until it initializes; the
initialization count tracks the handle; a trigger past the critical
section has seen the handle set. -/
def MapsInitInv {n : Nat} (s : MapsInitState n) : Prop :=
  (∀ i, inCritical (s.pcs i) → s.lockHolder = some i) ∧
  (∀ i, s.pcs i = .initing → s.serverInit = false) ∧
  (s.serverInit = false → s.initCount = 0) ∧
  (s.serverInit = true → s.initCount = 1) ∧
  (∀ i, s.pcs i = .releasing → s.serverInit = true) ∧
  (∀ i, s.pcs i = .done → s.serverInit = true)

/-- Concrete orchestrator runner used to exercise the handler embedding. -/
def orchOracle : String → String → Except String RunnerResult :=
  fun _ _ => .ok { finalOutput := "orchestrated", inputList := ["handoff"] }

/-- Concrete synthesizer runner used to exercise the handler embedding. -/
def synthOracle : String → List String → Except String RunnerResult :=
  fun _ _ => .ok { finalOutput := "final answer", inputList := [] }

/-- Concrete failing orchestrator runner. -/
def failOracle : String → String → Except String RunnerResult :=
  fun _ _ => .error "boom"

/-- Concrete Stripe call that raises a `StripeError`. -/
def declineOracle : StripeParams → StripeOutcome :=
  fun _ => .stripeError "card declined"

/-- Concrete query used to exercise the handler embedding. -/
def sampleQuery : ChatQuery :=
  { query := "hola", history := [], conversation_id := some "conv-1" }

/-- Concrete payment request used to exercise the handler embedding. -/
def samplePaymentRequest : PaymentRequest :=
  { amount := 10, currency := "mxn", description := "d", payment_method := "pm" }

/-- Concrete payment request decoded from a body with amount 19.99: the
parsed amount is the binary64 value nearest 19.99, which is slightly
below the decimal value. -/
def centsRequest : PaymentRequest :=
  { amount := round64 (1999 / 100), currency := "mxn", description := "d",
    payment_method := "pm" }

/-- Concrete history messages used to exercise the context builder. -/
def msgUser : ConversationMessage := { role := "user", content := "hola" }

/-- Second concrete history message. -/
def msgAssistant : ConversationMessage := { role := "assistant", content := "buenas" }

theorem string_data_append (s t : String) : (s ++ t).data = s.data ++ t.data := rfl

theorem formatMsg_data (m : ConversationMessage) :
    (formatMsg m).data = lineChars m ++ ['\n'] := by
  show (m.role ++ ": " ++ m.content ++ "\n").data = _
  rw [string_data_append, string_data_append, string_data_append]
  simp [lineChars]

theorem splitOnNl_ne_nil (xs : List Char) : splitOnNl xs ≠ [] := by
  induction xs with
  | nil => simp [splitOnNl]
  | cons c rest ih =>
    rw [splitOnNl]
    by_cases hc : c = '\n'
    · simp [hc]
    · simp only [if_neg hc]
      cases h : splitOnNl rest with
      | nil => simp
      | cons l ls => simp

theorem splitOnNl_cons_nl (xs : List Char) :
    splitOnNl ('\n' :: xs) = [] :: splitOnNl xs := by
  rw [splitOnNl]
  simp

theorem splitOnNl_append_nl (a b : List Char) (ha : '\n' ∉ a) :
    splitOnNl (a ++ '\n' :: b) = a :: splitOnNl b := by
  induction a with
  | nil => simpa using splitOnNl_cons_nl b
  | cons c rest ih =>
    have hc : c ≠ '\n' := fun h => ha (h ▸ List.mem_cons_self c rest)
    have hrest : '\n' ∉ rest := fun h => ha (List.mem_cons_of_mem c h)
    rw [List.cons_append, splitOnNl, if_neg hc, ih hrest]

theorem splitOnNl_flatten_lines (lines : List (List Char))
    (h : ∀ l ∈ lines, '\n' ∉ l) :
    splitOnNl ((lines.map (fun l => l ++ ['\n'])).flatten) = lines ++ [[]] := by
  induction lines with
  | nil => simp [splitOnNl]
  | cons l ls ih =>
    have hl : '\n' ∉ l := h l (List.mem_cons_self l ls)
    have hls : ∀ x ∈ ls, '\n' ∉ x := fun x hx => h x (List.mem_cons_of_mem l hx)
    simp only [List.map_cons, List.flatten_cons, List.append_assoc, List.singleton_append]
    rw [splitOnNl_append_nl _ _ hl, ih hls]
    simp

theorem buildConversationContext_foldl_data (h : List ConversationMessage) (s : String) :
    (h.foldl (fun acc m => acc ++ formatMsg m) s).data =
      s.data ++ (h.map (fun m => lineChars m ++ ['\n'])).flatten := by
  induction h generalizing s with
  | nil => simp
  | cons m rest ih =>
    simp only [List.foldl_cons, List.map_cons, List.flatten_cons]
    rw [ih, string_data_append, formatMsg_data, List.append_assoc]

theorem pyInt_of_den_one (q : ℚ) (h : q.den = 1) : pyInt q = q.num := by
  rw [pyInt, h]
  exact Int.tdiv_one q.num

theorem mapsInitInv_start (n : Nat) : MapsInitInv (MapsInitState.start n) := by
  refine ⟨?_, ?_, ?_, ?_, ?_, ?_⟩ <;>
    simp [MapsInitState.start, inCritical]

theorem mapsInitInv_step {n : Nat} {s t : MapsInitState n}
    (hs : MapsInitInv s) (hst : MapsInitStep n s t) : MapsInitInv t := by
  obtain ⟨h1, h2, h3, h4, h5, h6⟩ := hs
  cases hst with
  | acquire i hpc hlock =>
    refine ⟨fun j hj => ?_, fun j hj => ?_, h3, h4, fun j hj => ?_, fun j hj => ?_⟩
    · dsimp only at hj ⊢
      by_cases hji : j = i
      · rw [hji]
      · rw [Function.update_noteq hji] at hj
        exact absurd (h1 j hj) (by rw [hlock]; exact fun hcon => Option.noConfusion hcon)
    · dsimp only at hj ⊢
      by_cases hji : j = i
      · rw [hji, Function.update_same] at hj
        exact absurd hj (by decide)
      · rw [Function.update_noteq hji] at hj
        exact h2 j hj
    · dsimp only at hj ⊢
      by_cases hji : j = i
      · rw [hji, Function.update_same] at hj
        exact absurd hj (by decide)
      · rw [Function.update_noteq hji] at hj
        exact h5 j hj
    · dsimp only at hj ⊢
      by_cases hji : j = i
      · rw [hji, Function.update_same] at hj
        exact absurd hj (by decide)
      · rw [Function.update_noteq hji] at hj
        exact h6 j hj
  | checkNone i hpc hlock hsv =>
    refine ⟨fun j hj => ?_, fun _ _ => hsv, h3, h4, fun j hj => ?_, fun j hj => ?_⟩
    · dsimp only at hj ⊢
      by_cases hji : j = i
      · rw [hji]; exact hlock
      · rw [Function.update_noteq hji] at hj
        exact h1 j hj
    · dsimp only at hj ⊢
      by_cases hji : j = i
      · rw [hji, Function.update_same] at hj
        exact absurd hj (by decide)
      · rw [Function.update_noteq hji] at hj
        exact h5 j hj
    · dsimp only at hj ⊢
      by_cases hji : j = i
      · rw [hji, Function.update_same] at hj
        exact absurd hj (by decide)
      · rw [Function.update_noteq hji] at hj
        exact h6 j hj
  | checkSome i hpc hlock hsv =>
    refine ⟨fun j hj => ?_, fun j hj => ?_, h3, h4, fun _ _ => hsv, fun j hj => ?_⟩
    · dsimp only at hj ⊢
      by_cases hji : j = i
      · rw [hji]; exact hlock
      · rw [Function.update_noteq hji] at hj
        exact h1 j hj
    · dsimp only at hj ⊢
      by_cases hji : j = i
      · rw [hji, Function.update_same] at hj
        exact absurd hj (by decide)
      · rw [Function.update_noteq hji] at hj
        exact h2 j hj
    · dsimp only at hj ⊢
      by_cases hji : j = i
      · rw [hji, Function.update_same] at hj
        exact absurd hj (by decide)
      · rw [Function.update_noteq hji] at hj
        exact h6 j hj
  | doInit i hpc hlock =>
    refine ⟨fun j hj => ?_, fun j hj => ?_, fun hcon => ?_, fun _ => ?_,
      fun _ _ => rfl, fun _ _ => rfl⟩
    · dsimp only at hj ⊢
      by_cases hji : j = i
      · rw [hji]; exact hlock
      · rw [Function.update_noteq hji] at hj
        exact h1 j hj
    · dsimp only at hj ⊢
      by_cases hji : j = i
      · rw [hji, Function.update_same] at hj
        exact absurd hj (by decide)
      · rw [Function.update_noteq hji] at hj
        have : s.lockHolder = some j := h1 j (Or.inr (Or.inl hj))
        rw [hlock] at this
        exact absurd (Option.some.inj this).symm hji
    · exact Bool.noConfusion hcon
    · dsimp only
      rw [h3 (h2 i hpc)]
  | release i hpc hlock =>
    refine ⟨fun j hj => ?_, fun j hj => ?_, h3, h4, fun j hj => ?_, fun j hj => ?_⟩
    · dsimp only at hj ⊢
      exfalso
      by_cases hji : j = i
      · rw [hji, Function.update_same] at hj
        rcases hj with hj | hj | hj <;> exact absurd hj (by decide)
      · rw [Function.update_noteq hji] at hj
        have : s.lockHolder = some j := h1 j hj
        rw [hlock] at this
        exact hji (Option.some.inj this).symm
    · dsimp only at hj ⊢
      by_cases hji : j = i
      · rw [hji, Function.update_same] at hj
        exact absurd hj (by decide)
      · rw [Function.update_noteq hji] at hj
        exact h2 j hj
    · dsimp only at hj ⊢
      by_cases hji : j = i
      · rw [hji, Function.update_same] at hj
        exact absurd hj (by decide)
      · rw [Function.update_noteq hji] at hj
        exact h5 j hj
    · dsimp only at hj ⊢
      by_cases hji : j = i
      · exact h5 i hpc
      · rw [Function.update_noteq hji] at hj
        exact h6 j hj

theorem mapsInitInv_reachable {n : Nat} {s : MapsInitState n}
    (h : MapsInitReachable n s) : MapsInitInv s := by
  induction h with
  | start => exact mapsInitInv_start n
  | step _ hstep ih => exact mapsInitInv_step ih hstep

/-- C1: one Commerce invocation for a single destination produces exactly
three priced items — Flight, Hotel (3 nights) and Package = Flight +
Hotel + one activity — and the Package price equals Flight + Hotel minus
a discount of between 10 and 15 percent (inclusive) of that sum. -/
theorem commerce_three_items_and_discount
    (D : String) (flightPrice nightlyRate discount : ℚ) (lf lh lp : String)
    (r : PackageOptions)
    (hr : r = commerceInvoke D flightPrice nightlyRate discount lf lh lp)
    (hf1 : 350 ≤ flightPrice) (hf2 : flightPrice ≤ 600)
    (hn1 : 150 ≤ nightlyRate) (hn2 : nightlyRate ≤ 400)
    (hd1 : 10 ≤ discount) (hd2 : discount ≤ 15) :
    (commerceItems r).length = 3 ∧
    ∃ disc : ℚ,
      r.package.price_usd = r.flight.price_usd + r.hotel.price_usd - disc ∧
      10 / 100 * (r.flight.price_usd + r.hotel.price_usd) ≤ disc ∧
      disc ≤ 15 / 100 * (r.flight.price_usd + r.hotel.price_usd) := by
  subst hr
  have hS : (0 : ℚ) ≤ flightPrice + 3 * nightlyRate := by linarith
  refine ⟨rfl, (flightPrice + 3 * nightlyRate) * discount / 100, ?_, ?_, ?_⟩
  · show (flightPrice + 3 * nightlyRate) * (100 - discount) / 100 =
      flightPrice + 3 * nightlyRate - (flightPrice + 3 * nightlyRate) * discount / 100
    ring
  · show 10 / 100 * (flightPrice + 3 * nightlyRate) ≤
      (flightPrice + 3 * nightlyRate) * discount / 100
    nlinarith [mul_le_mul_of_nonneg_left hd1 hS]
  · show (flightPrice + 3 * nightlyRate) * discount / 100 ≤
      15 / 100 * (flightPrice + 3 * nightlyRate)
    nlinarith [mul_le_mul_of_nonneg_left hd2 hS]

theorem commerce_three_items_and_discount_witness :
    ((350 : ℚ) ≤ 500 ∧ (500 : ℚ) ≤ 600 ∧ (150 : ℚ) ≤ 200 ∧ (200 : ℚ) ≤ 400 ∧
      (10 : ℚ) ≤ 10 ∧ (10 : ℚ) ≤ 15) ∧
    ((commerceItems (commerceInvoke "Paris" 500 200 10 "fly" "stay" "pack")).length = 3 ∧
     ∃ disc : ℚ,
       (commerceInvoke "Paris" 500 200 10 "fly" "stay" "pack").package.price_usd =
         (commerceInvoke "Paris" 500 200 10 "fly" "stay" "pack").flight.price_usd +
           (commerceInvoke "Paris" 500 200 10 "fly" "stay" "pack").hotel.price_usd - disc ∧
       10 / 100 * ((commerceInvoke "Paris" 500 200 10 "fly" "stay" "pack").flight.price_usd +
         (commerceInvoke "Paris" 500 200 10 "fly" "stay" "pack").hotel.price_usd) ≤ disc ∧
       disc ≤ 15 / 100 * ((commerceInvoke "Paris" 500 200 10 "fly" "stay" "pack").flight.price_usd +
         (commerceInvoke "Paris" 500 200 10 "fly" "stay" "pack").hotel.price_usd)) :=
  ⟨by norm_num,
   commerce_three_items_and_discount "Paris" 500 200 10 "fly" "stay" "pack"
     (commerceInvoke "Paris" 500 200 10 "fly" "stay" "pack") rfl
     (by norm_num) (by norm_num) (by norm_num) (by norm_num) (by norm_num) (by norm_num)⟩

/-- C2: `POST /create-payment-intent` always answers HTTP 200 with a
body carrying the success flag; when the Stripe call raises any error
(a `StripeError` or any other exception) the handler still returns a
normal response with `success = false` and the error string, rather than
raising or returning an HTTP error status. -/
theorem payment_intent_always_http_200
    (stripeCreate : StripeParams → StripeOutcome) (req : PaymentRequest) :
    httpStatus (create_payment_intent stripeCreate req) = 200 ∧
    (∀ e, stripeCreate (stripeParams req) = .stripeError e ∨
          stripeCreate (stripeParams req) = .exn e →
      create_payment_intent stripeCreate req =
        .ok { success := false, payment_id := none, error := some e }) := by
  constructor
  · rw [create_payment_intent]
    cases stripeCreate (stripeParams req) <;> rfl
  · intro e he
    rw [create_payment_intent]
    rcases he with he | he <;> rw [he]

theorem payment_intent_always_http_200_witness :
    httpStatus (create_payment_intent declineOracle samplePaymentRequest) = 200 ∧
    declineOracle (stripeParams samplePaymentRequest) = .stripeError "card declined" ∧
    create_payment_intent declineOracle samplePaymentRequest =
      .ok { success := false, payment_id := none, error := some "card declined" } :=
  ⟨(payment_intent_always_http_200 declineOracle samplePaymentRequest).1, rfl,
   (payment_intent_always_http_200 declineOracle samplePaymentRequest).2
     "card declined" (Or.inl rfl)⟩

theorem rne_intCast (k : ℤ) : rne ((k : ℤ) : ℚ) = k := by
  rw [rne, Int.floor_intCast, sub_self]
  norm_num

theorem pyInt_natCast (k : ℕ) : pyInt ((k : ℕ) : ℚ) = (k : ℤ) := by
  rw [pyInt_of_den_one _ (Rat.den_natCast k), Rat.num_natCast]

theorem round64_natCast (m : ℕ) (hm : m < 2 ^ 53) :
    round64 ((m : ℕ) : ℚ) = (m : ℚ) := by
  rcases Nat.eq_zero_or_pos m with h0 | hpos
  · subst h0
    simp [round64]
  · have h1 : (1 : ℚ) ≤ (m : ℚ) := by exact_mod_cast hpos
    have hne : ((m : ℕ) : ℚ) ≠ 0 := Nat.cast_ne_zero.mpr hpos.ne'
    rw [round64, if_neg (not_lt.mpr (by positivity)), if_neg hne, round64Pos]
    have hfl : floorLog2 ((m : ℕ) : ℚ) = (Nat.log2 m : ℤ) := by
      rw [floorLog2, if_pos h1, Int.floor_natCast, Int.toNat_natCast]
    have hL52 : Nat.log2 m ≤ 52 := by
      have := (Nat.log2_lt hpos.ne').mpr hm
      omega
    have hexp : (52 : ℤ) - (Nat.log2 m : ℤ) = ((52 - Nat.log2 m : ℕ) : ℤ) := by omega
    rw [hfl, hexp]
    have hcast : ((m : ℕ) : ℚ) * (2 : ℚ) ^ (((52 - Nat.log2 m : ℕ) : ℕ) : ℤ) =
        ((m * 2 ^ (52 - Nat.log2 m) : ℕ) : ℚ) := by
      rw [zpow_natCast]
      push_cast
      ring
    rw [hcast]
    have hrne : rne ((m * 2 ^ (52 - Nat.log2 m) : ℕ) : ℚ) =
        ((m * 2 ^ (52 - Nat.log2 m) : ℕ) : ℤ) := by
      have h := rne_intCast ((m * 2 ^ (52 - Nat.log2 m) : ℕ) : ℤ)
      push_cast at h ⊢
      exact h
    rw [hrne]
    have hexp2 : (Nat.log2 m : ℤ) - 52 = -(((52 - Nat.log2 m : ℕ) : ℕ) : ℤ) := by omega
    rw [hexp2, zpow_neg, zpow_natCast]
    push_cast
    rw [mul_assoc, mul_inv_cancel₀ (pow_ne_zero _ two_ne_zero), mul_one]

theorem natLog2_19 : Nat.log2 19 = 4 := by
  have h1 : 4 ≤ Nat.log2 19 := (Nat.le_log2 (by norm_num)).mpr (by norm_num)
  have h2 : Nat.log2 19 < 5 := (Nat.log2_lt (by norm_num)).mpr (by norm_num)
  omega

theorem natLog2_1998 : Nat.log2 1998 = 10 := by
  have h1 : 10 ≤ Nat.log2 1998 := (Nat.le_log2 (by norm_num)).mpr (by norm_num)
  have h2 : Nat.log2 1998 < 11 := (Nat.log2_lt (by norm_num)).mpr (by norm_num)
  omega

theorem floorLog2_as_parsed : floorLog2 (1999 / 100 : ℚ) = 4 := by
  rw [floorLog2, if_pos (by norm_num : (1 : ℚ) ≤ 1999 / 100)]
  have h1 : ⌊(1999 / 100 : ℚ)⌋ = 19 := by norm_num
  rw [h1]
  have h2 : (19 : ℤ).toNat = 19 := rfl
  rw [h2, natLog2_19]
  rfl

theorem rne_as_parsed : rne (562668478444601344 / 100 : ℚ) = 5626684784446013 := by
  have h1 : ⌊(562668478444601344 / 100 : ℚ)⌋ = 5626684784446013 := by norm_num
  rw [rne, h1, if_pos (by norm_num)]

theorem round64_as_parsed :
    round64 (1999 / 100 : ℚ) = 5626684784446013 / 281474976710656 := by
  rw [round64, if_neg (by norm_num), if_neg (by norm_num), round64Pos, floorLog2_as_parsed]
  have h1 : (52 : ℤ) - 4 = 48 := by norm_num
  have h2 : (2 : ℚ) ^ (48 : ℤ) = 281474976710656 := by norm_num
  have h3 : (1999 / 100 : ℚ) * 281474976710656 = 562668478444601344 / 100 := by norm_num
  have h4 : (4 : ℤ) - 52 = -48 := by norm_num
  rw [h1, h2, h3, rne_as_parsed, h4]
  norm_num

theorem floorLog2_product : floorLog2 (140667119611150325 / 70368744177664 : ℚ) = 10 := by
  rw [floorLog2, if_pos (by norm_num : (1 : ℚ) ≤ 140667119611150325 / 70368744177664)]
  have h1 : ⌊(140667119611150325 / 70368744177664 : ℚ)⌋ = 1998 := by norm_num
  rw [h1]
  have h2 : (1998 : ℤ).toNat = 1998 := rfl
  rw [h2, natLog2_1998]
  rfl

theorem rne_product : rne (140667119611150325 / 16 : ℚ) = 8791694975696895 := by
  have h1 : ⌊(140667119611150325 / 16 : ℚ)⌋ = 8791694975696895 := by norm_num
  rw [rne, h1, if_pos (by norm_num)]

theorem round64_product :
    round64 (140667119611150325 / 70368744177664 : ℚ) =
      8791694975696895 / 4398046511104 := by
  rw [round64, if_neg (by norm_num), if_neg (by norm_num), round64Pos, floorLog2_product]
  have h1 : (52 : ℤ) - 10 = 42 := by norm_num
  have h2 : (2 : ℚ) ^ (42 : ℤ) = 4398046511104 := by norm_num
  have h3 : (140667119611150325 / 70368744177664 : ℚ) * 4398046511104 =
      140667119611150325 / 16 := by norm_num
  have h4 : (10 : ℤ) - 52 = -42 := by norm_num
  rw [h1, h2, h3, rne_product, h4]
  norm_num

theorem fmul64_cents :
    fmul64 (round64 (1999 / 100 : ℚ)) 100 = 8791694975696895 / 4398046511104 := by
  rw [fmul64, round64_as_parsed]
  have h1 : (5626684784446013 / 281474976710656 : ℚ) * 100 =
      140667119611150325 / 70368744177664 := by norm_num
  rw [h1, round64_product]

/-- C3 counterexample: for the request whose JSON body carries amount
19.99 (parsed as the binary64 value nearest 19.99), the program submits
`int(request.amount * 100) = 1998` to Stripe, while 100 times the
major-unit amount is 1999 — the float product rounds just below 1999
and `int()` truncates it. -/
theorem payment_amount_rounding_counterexample :
    (stripeParams centsRequest).amount = 1998 ∧
    (1999 / 100 : ℚ) * 100 = 1999 ∧ (1998 : ℤ) ≠ 1999 := by
  refine ⟨?_, by norm_num, by decide⟩
  show pyInt (fmul64 (round64 (1999 / 100 : ℚ)) 100) = 1998
  rw [fmul64_cents, pyInt]
  have hnum : ((8791694975696895 : ℚ) / 4398046511104).num = 8791694975696895 := by
    norm_num
  have hden : ((8791694975696895 : ℚ) / 4398046511104).den = 4398046511104 := by
    norm_num
  rw [hnum, hden]
  decide

/-- C3 amended: the amount submitted to Stripe is
`int(request.amount * 100)` computed in binary64 float arithmetic. For a
whole-number amount (an integer below 2 ^ 45, so the amount and its
product with 100 are exactly representable) the submitted integer is
exactly 100 times the major-unit amount; for fractional amounts the
binary64 product can round below the exact decimal value and `int()`
then submits one minor unit less — amount 19.99 is submitted as 1998. -/
theorem payment_amount_minor_units (req : PaymentRequest) (n : ℕ)
    (hamt : req.amount = (n : ℚ)) (hrange : n < 2 ^ 45) :
    ((stripeParams req).amount : ℚ) = req.amount * 100 := by
  show ((pyInt (fmul64 req.amount 100) : ℤ) : ℚ) = _
  rw [hamt, fmul64]
  have h1 : ((n : ℕ) : ℚ) * 100 = ((n * 100 : ℕ) : ℚ) := by push_cast; ring
  have h2 : n * 100 < 2 ^ 53 := by omega
  rw [h1, round64_natCast _ h2, pyInt_natCast]
  push_cast
  ring

theorem payment_amount_minor_units_witness :
    (samplePaymentRequest.amount = ((10 : ℕ) : ℚ) ∧ (10 : ℕ) < 2 ^ 45) ∧
    ((stripeParams samplePaymentRequest).amount : ℚ) =
      samplePaymentRequest.amount * 100 :=
  ⟨⟨by norm_num [samplePaymentRequest], by norm_num⟩,
   payment_amount_minor_units samplePaymentRequest 10
     (by norm_num [samplePaymentRequest]) (by norm_num)⟩

/-- C4: with empty history the conversation context is the empty string;
with N history entries (whose roles and contents contain no newline) the
context splits on newlines into exactly the N formatted `role: content`
lines in original order, framed by the fixed header. -/
theorem conversation_context_lines (m : ConversationMessage) (rest : List ConversationMessage)
    (hnl : ∀ x ∈ m :: rest, '\n' ∉ x.role.data ∧ '\n' ∉ x.content.data) :
    buildConversationContext [] = "" ∧
    splitOnNl (buildConversationContext (m :: rest)).data =
      ([] : List Char) :: ("Previous conversation:").data ::
        ((m :: rest).map lineChars ++ [[]]) ∧
    ((m :: rest).map lineChars).length = (m :: rest).length := by
  refine ⟨rfl, ?_, by simp⟩
  have hlines : ∀ l ∈ (m :: rest).map lineChars, '\n' ∉ l := by
    intro l hl
    obtain ⟨x, hx, rfl⟩ := List.mem_map.mp hl
    obtain ⟨hr, hc⟩ := hnl x hx
    rw [lineChars]
    intro hmem
    rcases List.mem_append.mp hmem with hmem | hmem
    · exact hr hmem
    · rcases List.mem_cons.mp hmem with hmem | hmem
      · exact absurd hmem (by decide)
      · rcases List.mem_cons.mp hmem with hmem | hmem
        · exact absurd hmem (by decide)
        · exact hc hmem
  have hdata : (buildConversationContext (m :: rest)).data =
      '\n' :: (("Previous conversation:").data ++
        '\n' :: (((m :: rest).map lineChars).map (fun l => l ++ ['\n'])).flatten) := by
    rw [buildConversationContext]
    simp only [List.isEmpty_cons, Bool.false_eq_true, if_false]
    rw [buildConversationContext_foldl_data, List.map_map]
    have hlit : ("\nPrevious conversation:\n").data =
        '\n' :: ("Previous conversation:").data ++ ['\n'] := by decide
    rw [hlit]
    simp [Function.comp_def]
  rw [hdata, splitOnNl_cons_nl,
    splitOnNl_append_nl _ _ (by decide),
    splitOnNl_flatten_lines _ hlines]

theorem conversation_context_lines_witness :
    (∀ x ∈ msgUser :: [msgAssistant], '\n' ∉ x.role.data ∧ '\n' ∉ x.content.data) ∧
    (buildConversationContext [] = "" ∧
     splitOnNl (buildConversationContext (msgUser :: [msgAssistant])).data =
       ([] : List Char) :: ("Previous conversation:").data ::
         ((msgUser :: [msgAssistant]).map lineChars ++ [[]]) ∧
     ((msgUser :: [msgAssistant]).map lineChars).length = (msgUser :: [msgAssistant]).length) :=
  ⟨by decide, conversation_context_lines msgUser [msgAssistant] (by decide)⟩

/-- C5 counterexample: a failure during validation is not reported as
HTTP 500 — a body missing the required `query` field is rejected by the
framework validation layer with HTTP 422 before the handler runs, so the
response status is 422, not 500. -/
theorem query_validation_failure_not_500 :
    query_endpoint orchOracle synthOracle "trace-1"
      { query := none, history := [], conversation_id := none } =
      .error { status := 422, detail := "field required: query" } ∧
    httpStatus (query_endpoint orchOracle synthOracle "trace-1"
      { query := none, history := [], conversation_id := none }) ≠ 500 :=
  ⟨rfl, by decide⟩

/-- C5 amended: a malformed `POST /query` body is rejected by the
framework validation layer with HTTP 422 before the handler runs, while
any failure raised inside the handler — in the orchestrator stage or in
the synthesizer stage, including external-provider communication — is
caught and reported as a single HTTP 500 failure carrying the error
detail string; no partial response is returned in either case. -/
theorem query_failure_single_error
    (runOrchestrator : String → String → Except String RunnerResult)
    (runSynthesizer : String → List String → Except String RunnerResult)
    (tid : String) (q : ChatQuery) (b : RawChatBody) (e : String) :
    (b.query = none →
      query_endpoint runOrchestrator runSynthesizer tid b =
        .error { status := 422, detail := "field required: query" }) ∧
    (runOrchestrator (buildConversationContext q.history) q.query = .error e →
      process_query runOrchestrator runSynthesizer tid q =
        .error { status := 500, detail := e }) ∧
    (∀ orch, runOrchestrator (buildConversationContext q.history) q.query = .ok orch →
      runSynthesizer (buildConversationContext q.history) orch.inputList = .error e →
      process_query runOrchestrator runSynthesizer tid q =
        .error { status := 500, detail := e }) := by
  refine ⟨?_, ?_, ?_⟩
  · intro hq
    simp [query_endpoint, validateChatQuery, hq]
  · intro h
    simp [process_query, h]
  · intro orch h1 h2
    simp [process_query, h1, h2]

theorem query_failure_single_error_witness :
    query_endpoint failOracle synthOracle "trace-1"
      { query := none, history := [], conversation_id := none } =
      .error { status := 422, detail := "field required: query" } ∧
    process_query failOracle synthOracle "trace-1" sampleQuery =
      .error { status := 500, detail := "boom" } :=
  ⟨(query_failure_single_error failOracle synthOracle "trace-1" sampleQuery
      { query := none, history := [], conversation_id := none } "boom").1 rfl,
   (query_failure_single_error failOracle synthOracle "trace-1" sampleQuery
      { query := none, history := [], conversation_id := none } "boom").2.1 rfl⟩

/-- C6 counterexample: with both environment keys absent, the startup
code does not fail fast with a configuration error — it succeeds and
stores `None` for `stripe.api_key`, the toolkit secret key and the maps
API key, leaving the absence to surface from the downstream providers. -/
theorem startup_missing_keys_no_failfast :
    startupInit (fun _ => none) =
      .ok { stripeApiKey := none, toolkitSecretKey := none, mapsApiKeyEnv := none } ∧
    ¬ ∃ err, startupInit (fun _ => none) = .error err := by
  refine ⟨rfl, ?_⟩
  rintro ⟨err, h⟩
  exact Except.noConfusion h

/-- C6 amended: startup performs no validation of the environment keys:
for every environment, it succeeds and passes the raw `os.getenv`
results (possibly `None`) to `stripe.api_key`, the toolkit and the maps
subprocess environment, so a missing key is surfaced, if at all, by the
downstream provider and never by a startup configuration check. -/
theorem startup_reads_keys_without_validation (getenv : String → Option String) :
    startupInit getenv =
      .ok { stripeApiKey := getenv "STRIPE_SECRET_KEY",
            toolkitSecretKey := getenv "STRIPE_SECRET_KEY",
            mapsApiKeyEnv := getenv "GOOGLE_MAPS_API_KEY" } := rfl

/-- C7: a successful `POST /query` ran the orchestrator on the query,
then the synthesizer on exactly the orchestrator result converted to an
input list, and the response carries the synthesizer final output
together with the generated trace id (and the request conversation id). -/
theorem orchestrator_then_synthesizer
    (runOrchestrator : String → String → Except String RunnerResult)
    (runSynthesizer : String → List String → Except String RunnerResult)
    (tid : String) (q : ChatQuery) (r : Response)
    (h : process_query runOrchestrator runSynthesizer tid q = .ok r) :
    ∃ orch synth : RunnerResult,
      runOrchestrator (buildConversationContext q.history) q.query = .ok orch ∧
      runSynthesizer (buildConversationContext q.history) orch.inputList = .ok synth ∧
      r = { response := synth.finalOutput, trace_id := tid,
            conversation_id := q.conversation_id } := by
  simp only [process_query] at h
  split at h
  next e heq => exact Except.noConfusion h
  next orch heq =>
    split at h
    next e heq2 => exact Except.noConfusion h
    next synth heq2 =>
      exact ⟨orch, synth, heq, heq2, (Except.ok.inj h).symm⟩

theorem orchestrator_then_synthesizer_witness :
    process_query orchOracle synthOracle "trace-1" sampleQuery =
      .ok { response := "final answer", trace_id := "trace-1",
            conversation_id := some "conv-1" } ∧
    ∃ orch synth : RunnerResult,
      orchOracle (buildConversationContext sampleQuery.history) sampleQuery.query = .ok orch ∧
      synthOracle (buildConversationContext sampleQuery.history) orch.inputList = .ok synth ∧
      ({ response := "final answer", trace_id := "trace-1",
         conversation_id := some "conv-1" } : Response) =
        { response := synth.finalOutput, trace_id := "trace-1",
          conversation_id := sampleQuery.conversation_id } :=
  ⟨rfl, orchestrator_then_synthesizer orchOracle synthOracle "trace-1" sampleQuery _ rfl⟩

/-- C8: in every interleaving of startup triggers racing through the
lock-guarded block of `lifespan`, the maps server is initialized at most
once, at most one trigger is ever inside the guarded critical section,
and once any trigger has finished the block exactly one initialization
has occurred. -/
theorem maps_server_init_at_most_once (n : Nat) (s : MapsInitState n)
    (h : MapsInitReachable n s) :
    s.initCount ≤ 1 ∧
    (∀ i j : Fin n, inCritical (s.pcs i) → inCritical (s.pcs j) → i = j) ∧
    (∀ i : Fin n, s.pcs i = .done → s.initCount = 1) := by
  obtain ⟨h1, h2, h3, h4, h5, h6⟩ := mapsInitInv_reachable h
  refine ⟨?_, ?_, ?_⟩
  · cases hsv : s.serverInit with
    | false => rw [h3 hsv]; exact Nat.zero_le 1
    | true => rw [h4 hsv]
  · intro i j hi hj
    exact Option.some.inj ((h1 i hi).symm.trans (h1 j hj))
  · intro i hdone
    exact h4 (h6 i hdone)

theorem maps_server_init_at_most_once_witness :
    MapsInitReachable 2 (MapsInitState.start 2) ∧
    ((MapsInitState.start 2).initCount ≤ 1 ∧
     (∀ i j : Fin 2, inCritical ((MapsInitState.start 2).pcs i) →
        inCritical ((MapsInitState.start 2).pcs j) → i = j) ∧
     (∀ i : Fin 2, (MapsInitState.start 2).pcs i = .done →
        (MapsInitState.start 2).initCount = 1)) :=
  ⟨.start, maps_server_init_at_most_once 2 (MapsInitState.start 2) .start⟩

/-- C9: every response body of `POST /create-payment-intent` is
internally consistent: the payment id is present exactly when the
success flag is true, and the error string is present exactly when the
success flag is false. -/
theorem payment_response_fields_consistent
    (stripeCreate : StripeParams → StripeOutcome) (req : PaymentRequest)
    (resp : PaymentResponse)
    (h : create_payment_intent stripeCreate req = .ok resp) :
    resp.payment_id.isSome = resp.success ∧ resp.error.isSome = !resp.success := by
  cases hc : stripeCreate (stripeParams req) with
  | ok intentId =>
    simp only [create_payment_intent, hc] at h
    cases Except.ok.inj h
    exact ⟨rfl, rfl⟩
  | stripeError e =>
    simp only [create_payment_intent, hc] at h
    cases Except.ok.inj h
    exact ⟨rfl, rfl⟩
  | exn e =>
    simp only [create_payment_intent, hc] at h
    cases Except.ok.inj h
    exact ⟨rfl, rfl⟩

theorem payment_response_fields_consistent_witness :
    create_payment_intent declineOracle samplePaymentRequest =
      .ok { success := false, payment_id := none, error := some "card declined" } ∧
    ((none : Option String).isSome = false ∧ (some "card declined").isSome = !false) :=
  ⟨rfl, payment_response_fields_consistent declineOracle samplePaymentRequest
    { success := false, payment_id := none, error := some "card declined" } rfl⟩

/-- C10: a successful `POST /query` returns the request conversation id
exactly and unchanged (`None` in the response exactly when absent from
the request); the handler never generates or alters it. -/
theorem response_conversation_id_passthrough
    (runOrchestrator : String → String → Except String RunnerResult)
    (runSynthesizer : String → List String → Except String RunnerResult)
    (tid : String) (q : ChatQuery) (r : Response)
    (h : process_query runOrchestrator runSynthesizer tid q = .ok r) :
    r.conversation_id = q.conversation_id := by
  simp only [process_query] at h
  split at h
  next e heq => exact Except.noConfusion h
  next orch heq =>
    split at h
    next e heq2 => exact Except.noConfusion h
    next synth heq2 =>
      cases Except.ok.inj h
      rfl

theorem response_conversation_id_passthrough_witness :
    process_query orchOracle synthOracle "trace-1" sampleQuery =
      .ok { response := "final answer", trace_id := "trace-1",
            conversation_id := some "conv-1" } ∧
    (some "conv-1" : Option String) = sampleQuery.conversation_id :=
  ⟨rfl, response_conversation_id_passthrough orchOracle synthOracle "trace-1" sampleQuery
    { response := "final answer", trace_id := "trace-1", conversation_id := some "conv-1" } rfl⟩
